import Mathlib

/-!
Shallow embedding of the command layer of the dimppl desktop podcast client
(`src/src-tauri/src/commands.rs`) and proofs about its orchestration behavior.

Each Tauri command is translated into a pure Lean function. Outcomes of
collaborator calls (database access, network fetch, the change-notification
bus) are passed in explicitly as `Except`-valued environment fields, and the
notifications a command (or its detached task) publishes are returned as an
ordered list of `Emitted` values. A detached task that panics (from `.unwrap()`
on an `Err`) is modelled by a `Bool` flag alongside the events it delivered
before the panic.
-/

namespace Dimppl

/-- An application error (`crate::errors::AppError`), carrying a message as
produced by `to_string()`. -/
structure AppError where
  msg : String
deriving DecidableEq

/-- `AppResult<T>` from `crate::errors`. -/
abbrev AppResult (α : Type) := Except AppError α

instance {ε α : Type} [DecidableEq ε] [DecidableEq α] : DecidableEq (Except ε α)
  | .ok a, .ok b =>
    if h : a = b then .isTrue (by rw [h]) else .isFalse (by intro hh; cases hh; exact h rfl)
  | .ok _, .error _ => .isFalse (by intro h; cases h)
  | .error _, .ok _ => .isFalse (by intro h; cases h)
  | .error a, .error b =>
    if h : a = b then .isTrue (by rw [h]) else .isFalse (by intro hh; cases hh; exact h rfl)

/-- The slice of `Podcast` relevant to the command layer: its integer id. -/
structure Podcast where
  id : Int
deriving DecidableEq

/-- The slice of `Episode` relevant to the command layer: its integer id. -/
structure Episode where
  id : Int
deriving DecidableEq

/-- The slice of `EpisodeProgress` read by `play_episode`: the completed flag
and the listened-seconds counter (a machine integer in the database layer,
modelled as `Int`). -/
structure EpisodeProgress where
  completed : Bool
  listened_seconds : Int
deriving DecidableEq

/-- `EntityChange` from `crate::frontend_change_tracking`: which cached entity
the frontend must consider stale. -/
inductive EntityChange
  | allPodcasts
  | podcast (id : Int)
  | podcastEpisodes (id : Int)
  | episode (id : Int)
deriving DecidableEq

/-- A notification published by the command layer: either a cache-invalidation
event sent through `send_invalidate_cache`, or one of the named signals sent
through `emit_all` in `commands.rs`. -/
inductive Emitted
  | invalidateCache (c : EntityChange)
  | syncPodcastsDone
  | importPodcastDone (importId : String)
  | importPodcastError (importId : String) (msg : String)
deriving DecidableEq

/-- Whether a notification is a terminal failure notification. The only
failure-notification signal occurring anywhere in `commands.rs` is
`import-podcast-error`. -/
def isFailureNotification : Emitted → Bool
  | .importPodcastError _ _ => true
  | _ => false

/-- Whether a notification is one of the two terminal import notifications
`import-podcast-done` / `import-podcast-error`. -/
def isImportTerminal : Emitted → Bool
  | .importPodcastDone _ => true
  | .importPodcastError _ _ => true
  | _ => false

/-- The request identifier an import notification is tagged with, if any. -/
def importTag : Emitted → Option String
  | .importPodcastDone i => some i
  | .importPodcastError i _ => some i
  | _ => none

/-! ## Download (`download_episode` / `do_download_episode`, lines 134–152) -/

/-- Outcomes of the collaborator calls made by `do_download_episode`:
the result of `episode::start_download` and the result of
`app.send_invalidate_cache(EntityChange::Episode(id))`. -/
structure DownloadEnv where
  startResult : AppResult Unit
  sendResult : AppResult Unit
deriving DecidableEq

/-- `do_download_episode` (lines 144–152): awaits `episode::start_download`,
propagating its error with `?` (so the cache-invalidation event is not sent on
failure), then sends `EntityChange::Episode(id)`. Returns the notifications it
published and its `AppResult`. -/
def do_download_episode (id : Int) (env : DownloadEnv) : List Emitted × AppResult Unit :=
  match env.startResult with
  | .error e => ([], .error e)
  | .ok _ => ([.invalidateCache (.episode id)], env.sendResult)

/-- `download_episode` (lines 134–142): spawns `do_download_episode` as a
detached task, dropping the join handle (and with it the task's `AppResult`),
and returns `Ok(())` at once. Returns the command's own result and the events
the detached task publishes. -/
def download_episode (id : Int) (env : DownloadEnv) : AppResult Unit × List Emitted :=
  (.ok (), (do_download_episode id env).1)

/-! ## Import (`import_podcast` / `do_import_podcast`, lines 102–126) -/

/-- Outcomes of the collaborator calls made by `do_import_podcast`: the result
of `podcast::import_podcast_from_url` and the result of
`app.send_invalidate_cache(EntityChange::Podcast(podcast.id))`. -/
structure ImportEnv where
  importResult : AppResult Podcast
  sendResult : AppResult Unit
deriving DecidableEq

/-- `do_import_podcast` (lines 102–107): imports the podcast from the URL,
propagating a failure with `?`, then sends `EntityChange::Podcast(podcast.id)`.
Returns the notifications it published and its `AppResult`. -/
def do_import_podcast (env : ImportEnv) : List Emitted × AppResult Unit :=
  match env.importResult with
  | .error e => ([], .error e)
  | .ok p => ([.invalidateCache (.podcast p.id)], env.sendResult)

/-- `import_podcast` (lines 109–126): generates a fresh request identifier
(`Uuid::new_v4()`, modelled as the `importId` argument), spawns a task that
runs `do_import_podcast` and emits `import-podcast-done` with the identifier on
`Ok`, or `import-podcast-error` with the identifier and the error message on
`Err`, and immediately returns `Ok(import_id)`. Returns the command's result
and the full list of notifications the detached task publishes. -/
def import_podcast (importId : String) (env : ImportEnv) : AppResult String × List Emitted :=
  match do_import_podcast env with
  | (es, .ok _) => (.ok importId, es ++ [.importPodcastDone importId])
  | (es, .error e) => (.ok importId, es ++ [.importPodcastError importId e.msg])

/-! ## Sync (`sync_podcasts`, lines 24–40) -/

/-- Outcomes of the collaborator calls made by the detached sync task: the
result of `podcast::sync_podcasts`, of `podcast::list_all`, and of each
`app.send_invalidate_cache` call (by the event being sent). -/
structure SyncEnv where
  syncResult : AppResult Unit
  listResult : AppResult (List Podcast)
  sendResult : EntityChange → AppResult Unit

/-- The per-podcast send loop of the sync task (lines 31–35): for each podcast,
sends `Podcast(id)` then `PodcastEpisodes(id)`, each followed by `.unwrap()`.
Returns the events published before the loop finished or panicked, and whether
it panicked. -/
def syncSends (send : EntityChange → AppResult Unit) : List Podcast → List Emitted × Bool
  | [] => ([], false)
  | p :: rest =>
    match send (.podcast p.id) with
    | .error _ => ([.invalidateCache (.podcast p.id)], true)
    | .ok _ =>
      match send (.podcastEpisodes p.id) with
      | .error _ =>
        ([.invalidateCache (.podcast p.id), .invalidateCache (.podcastEpisodes p.id)], true)
      | .ok _ =>
        (.invalidateCache (.podcast p.id) :: .invalidateCache (.podcastEpisodes p.id) ::
          (syncSends send rest).1,
         (syncSends send rest).2)

/-- The detached task spawned by `sync_podcasts` (lines 25–37): runs
`podcast::sync_podcasts` and `podcast::list_all` with `.unwrap()` (a failure
panics the task, publishing nothing further and no failure notification), sends
`AllPodcasts` then the per-podcast events with `.unwrap()`, and finally emits
`sync-podcasts-done` with the result discarded (`let _ =`). Returns the events
the task published and whether it panicked. -/
def syncPodcastsTask (env : SyncEnv) : List Emitted × Bool :=
  match env.syncResult with
  | .error _ => ([], true)
  | .ok _ =>
    match env.listResult with
    | .error _ => ([], true)
    | .ok podcasts =>
      match env.sendResult .allPodcasts with
      | .error _ => ([.invalidateCache .allPodcasts], true)
      | .ok _ =>
        match syncSends env.sendResult podcasts with
        | (es, true) => (.invalidateCache .allPodcasts :: es, true)
        | (es, false) => ((.invalidateCache .allPodcasts :: es) ++ [.syncPodcastsDone], false)

/-- `sync_podcasts` (lines 24–40): spawns the sync task, dropping the join
handle, and returns `Ok(())` at once. -/
def sync_podcasts (env : SyncEnv) : AppResult Unit × (List Emitted × Bool) :=
  (.ok (), syncPodcastsTask env)

/-! ## Playback (`play_episode`, lines 167–181) -/

/-- Outcomes of the collaborator calls made synchronously by `play_episode`:
the results of `episode::find_one` and `episode::find_one_progress`. -/
structure PlayEnv where
  findResult : AppResult Episode
  progressResult : AppResult EpisodeProgress
deriving DecidableEq

/-- Rust's `as u64` cast applied to a signed machine integer, modelled on
unbounded `Int`: the value modulo `2^64`. -/
def castU64 (v : Int) : Nat := (v % (2 : Int) ^ 64).toNat

/-- `play_episode` (lines 167–181): loads the episode and its progress record,
propagating either failure with `?`; computes the start offset — `0` when the
progress is completed, otherwise `listened_seconds as u64` — and spawns a
thread playing the episode from that offset. Returns the command's result and,
when the thread was spawned, the episode and start offset handed to the
player. -/
def play_episode (env : PlayEnv) : AppResult Unit × Option (Episode × Nat) :=
  match env.findResult with
  | .error e => (.error e, none)
  | .ok ep =>
    match env.progressResult with
    | .error e => (.error e, none)
    | .ok progress =>
      let start_seconds : Nat :=
        if progress.completed then 0 else castU64 progress.listened_seconds
      (.ok (), some (ep, start_seconds))

/-- The body of the thread spawned by `play_episode` (lines 177–179):
`let _ = player.play_episode(episode, start_seconds);` — the playback result is
discarded and no notification of any kind is published. Returns the
notifications the thread publishes, which is none. -/
def playEpisodeThread (_playResult : AppResult Unit) : List Emitted := []

/-! ## Config store (`get_config`, `set_access_key`, `set_volume`) -/

/-- The fields of `Config` touched by `commands.rs`: access credentials, the
device name, and the volume (an `f32` in the source, modelled as `Rat`). -/
structure Config where
  user_access_key : String
  device_name : String
  access_token : String
  volume : Rat
deriving DecidableEq

/-- `ConfigWrapper`: the shared config store; its lock-guarded cell holds the
current `Config`. -/
structure ConfigWrapper where
  stored : Config
deriving DecidableEq

/-- Modelled from the spec: `ConfigWrapper::update` (spec §4.1, Config Store)
is not under src/; only its callers in `commands.rs` are. Per the spec it
atomically replaces the in-memory value and persists it; on persistence
failure the error is reported to the caller and the in-memory value is left
unchanged (never partially applied). The persistence outcome is an explicit
input. Returns the store after the call and the reported result. -/
def ConfigWrapper.update (w : ConfigWrapper) (new : Config) (persist : AppResult Unit) :
    ConfigWrapper × AppResult Unit :=
  match persist with
  | .ok _ => (⟨new⟩, .ok ())
  | .error e => (w, .error e)

/-- `get_config` (lines 60–63): locks the store and returns a clone of the
current config. Total: the return type is `Config`, with no failure outcome. -/
def get_config (w : ConfigWrapper) : Config := w.stored

/-- `set_access_key` (lines 80–86): clones the current config, overwrites its
`user_access_key` with the given value, and updates the store. -/
def set_access_key (value : String) (w : ConfigWrapper) (persist : AppResult Unit) :
    ConfigWrapper × AppResult Unit :=
  ConfigWrapper.update w { w.stored with user_access_key := value } persist

/-- Modelled from the spec: `Player::set_volume` (spec §4.3, Player State
Machine) is not under src/; only its caller in `commands.rs` is. Per the spec,
the valid range is `[0.0, 1.0]` and out-of-range values are clamped, not
rejected. Returns the effective volume applied to the output chain. -/
def Player.set_volume (v : Rat) : Rat := max 0 (min 1 v)

/-- `set_volume` (lines 204–215): clones the current config, sets its `volume`
field to the raw input (no clamping in the command), updates the store
(propagating a persistence failure with `?`, in which case the player is not
called), then hands the raw input to `player.set_volume`. Returns the store
after the call, the command's result, and the raw volume handed to the player
(when reached). -/
def set_volume (volume : Rat) (w : ConfigWrapper) (persist : AppResult Unit) :
    ConfigWrapper × AppResult Unit × Option Rat :=
  match ConfigWrapper.update w { w.stored with volume := volume } persist with
  | (w2, .ok _) => (w2, .ok (), some volume)
  | (w2, .error e) => (w2, .error e, none)

/-! ## Download state persistence (spec §4.2) -/

/-- The persisted download state of an episode (spec §3: not-downloaded /
downloading / downloaded). -/
inductive DownloadState
  | notDownloaded
  | downloading
  | downloaded
deriving DecidableEq

/-- A tracker progress entry: bytes received out of total (spec §3,
DownloadProgress). -/
structure Progress where
  downloadedBytes : Nat
  totalBytes : Nat
deriving DecidableEq

/-- Modelled from the spec: `episode::start_download` (spec §4.2, Download
Tracker + Orchestrator) is not under src/; only its caller
`do_download_episode` is. Per the spec it streams the media and on completion
marks the episode's persisted download state `downloaded`; on any I/O or
cancellation failure it marks the state `notDownloaded` (never left at
`downloading`) and surfaces the error; the tracker entry for the id is removed
when the task exits, so progress reads return absent state afterward. Inputs:
the pre-download persisted state and the outcome of the fetch collaborator.
Outputs: the final persisted state, the tracker entry after exit, and the
surfaced result. -/
def start_download (_pre : DownloadState) (fetchResult : AppResult Unit) :
    DownloadState × Option Progress × AppResult Unit :=
  match fetchResult with
  | .ok _ => (.downloaded, none, .ok ())
  | .error e => (.notDownloaded, none, .error e)

/-! ## Theorems for the claims -/

/-- Helper for C1: the per-podcast sync send loop publishes only
cache-invalidation events, never a failure notification. -/
theorem syncSends_filter_failure (send : EntityChange → AppResult Unit) (ps : List Podcast) :
    (syncSends send ps).1.filter isFailureNotification = [] := by
  induction ps with
  | nil => rfl
  | cons p rest ih =>
    simp only [syncSends]
    cases send (.podcast p.id) with
    | error e => rfl
    | ok u =>
      cases send (.podcastEpisodes p.id) with
      | error e => rfl
      | ok u2 => exact ih

/-- Helper for C1: the detached sync task never publishes a failure
notification on any path, panicking or not. -/
theorem syncTask_filter_failure (env : SyncEnv) :
    (syncPodcastsTask env).1.filter isFailureNotification = [] := by
  obtain ⟨sr, lr, send⟩ := env
  cases sr with
  | error e => rfl
  | ok u =>
    cases lr with
    | error e => rfl
    | ok ps =>
      cases hsa : send .allPodcasts with
      | error e => simp [syncPodcastsTask, hsa, isFailureNotification]
      | ok u2 =>
        have hes := syncSends_filter_failure send ps
        rcases hss : syncSends send ps with ⟨es, b⟩
        rw [hss] at hes
        simp only [syncPodcastsTask, hsa, hss]
        cases b with
        | true => exact hes
        | false => simp [List.filter_append, isFailureNotification, hes]

/-- Claim C1, counterexample: at concrete failing detached units of work, the
number of terminal failure notifications emitted is zero, not one — the
sync task panics (its `.unwrap()` on the failed sync), the failed download's
error is dropped with the discarded join handle, and the playback thread
discards the player error — refuting the claim that exactly one terminal
failure notification is emitted per failed request. -/
theorem C1_counterexample :
    ((syncPodcastsTask ⟨.error ⟨"network down"⟩, .ok [], fun _ => .ok ()⟩).1.filter
      isFailureNotification).length = 0 ∧
    (syncPodcastsTask ⟨.error ⟨"network down"⟩, .ok [], fun _ => .ok ()⟩).2 = true ∧
    ((do_download_episode 7 ⟨.error ⟨"io failure"⟩, .ok ()⟩).1.filter
      isFailureNotification).length = 0 ∧
    playEpisodeThread (.error ⟨"decode failure"⟩) = [] :=
  ⟨rfl, rfl, rfl, rfl⟩

/-- Claim C1, amended: of the asynchronous entry points, only `import_podcast`
emits a terminal failure notification; the detached units of work of
`sync_podcasts`, `download_episode` and `play_episode` emit no terminal
failure notification on any outcome — a failing sync panics the task, a
failing download's error is dropped with the join handle, and a failing
playback start's error is discarded — so those failures are silently
dropped. -/
theorem C1_failure_never_notified (envS : SyncEnv) (id : Int) (envD : DownloadEnv)
    (r : AppResult Unit) :
    (syncPodcastsTask envS).1.filter isFailureNotification = [] ∧
    (do_download_episode id envD).1.filter isFailureNotification = [] ∧
    playEpisodeThread r = [] := by
  refine ⟨syncTask_filter_failure envS, ?_, rfl⟩
  obtain ⟨s, d⟩ := envD
  cases s <;> rfl

/-- Helper for C6: when every bus publish succeeds, the per-podcast sync send
loop publishes, for each podcast in order, `Podcast(id)` then
`PodcastEpisodes(id)`, and does not panic. -/
theorem syncSends_all_ok (send : EntityChange → AppResult Unit)
    (h : ∀ c, send c = .ok ()) (ps : List Podcast) :
    syncSends send ps =
      (ps.flatMap fun p =>
        [Emitted.invalidateCache (.podcast p.id),
         Emitted.invalidateCache (.podcastEpisodes p.id)], false) := by
  induction ps with
  | nil => rfl
  | cons p rest ih =>
    simp only [syncSends, h, ih, List.flatMap_cons]
    simp

/-- Claim C6: for every `sync_podcasts` invocation whose collaborator calls
succeed, the command returns `Ok(())` immediately and the detached task
publishes its events in the fixed order `AllPodcasts` first, then for each
podcast `Podcast(id)` followed by `PodcastEpisodes(id)`, with the terminal
`sync-podcasts-done` notification strictly after all change events. -/
theorem C6_sync_event_order (env : SyncEnv) (ps : List Podcast)
    (hs : env.syncResult = .ok ()) (hl : env.listResult = .ok ps)
    (hsend : ∀ c, env.sendResult c = .ok ()) :
    (sync_podcasts env).1 = .ok () ∧
    syncPodcastsTask env =
      ((Emitted.invalidateCache .allPodcasts ::
          ps.flatMap fun p =>
            [Emitted.invalidateCache (.podcast p.id),
             Emitted.invalidateCache (.podcastEpisodes p.id)]) ++
        [Emitted.syncPodcastsDone], false) := by
  refine ⟨rfl, ?_⟩
  simp only [syncPodcastsTask, hs, hl, hsend, syncSends_all_ok env.sendResult hsend ps]

/-- Claim C6, witness at a concrete two-podcast library with all collaborator
calls succeeding. -/
theorem C6_sync_event_order_witness :
    (sync_podcasts ⟨.ok (), .ok [⟨1⟩, ⟨2⟩], fun _ => .ok ()⟩).1 = .ok () ∧
    syncPodcastsTask ⟨.ok (), .ok [⟨1⟩, ⟨2⟩], fun _ => .ok ()⟩ =
      ([.invalidateCache .allPodcasts,
        .invalidateCache (.podcast 1), .invalidateCache (.podcastEpisodes 1),
        .invalidateCache (.podcast 2), .invalidateCache (.podcastEpisodes 2),
        .syncPodcastsDone], false) :=
  C6_sync_event_order ⟨.ok (), .ok [⟨1⟩, ⟨2⟩], fun _ => .ok ()⟩ [⟨1⟩, ⟨2⟩] rfl rfl
    (fun _ => rfl)

/-- Claim C2, counterexample: with `episode::start_download` failing (an I/O
error), `do_download_episode` for episode 7 publishes no notification at all —
in particular the Change Bus event `Episode(7)` is not published on failure,
refuting the claim that it is published both on success and on failure. -/
theorem C2_counterexample :
    (do_download_episode 7 ⟨.error ⟨"io failure"⟩, .ok ()⟩).1 = [] ∧
    ((do_download_episode 7 ⟨.error ⟨"io failure"⟩, .ok ()⟩).1.contains
      (.invalidateCache (.episode 7))) = false ∧
    (do_download_episode 7 ⟨.error ⟨"io failure"⟩, .ok ()⟩).2 = .error ⟨"io failure"⟩ :=
  ⟨rfl, rfl, rfl⟩

/-- Claim C2, amended: `do_download_episode` publishes the Change Bus event
`Episode(id)` exactly when `episode::start_download` succeeds; when the
download fails, the `?` operator returns early and nothing is published. -/
theorem C2_episode_event_only_on_success (id : Int) (env : DownloadEnv) :
    (do_download_episode id env).1 =
      (match env.startResult with
        | .ok _ => [Emitted.invalidateCache (.episode id)]
        | .error _ => []) := by
  obtain ⟨s, d⟩ := env
  cases s <;> rfl

/-- Claim C3: a download that fails leaves the episode's persisted download
state equal to its pre-download value (`notDownloaded`, never stuck at
`downloading`), leaves the tracker entry absent, and surfaces the error both
from `start_download` and from its caller `do_download_episode`. The body of
`episode::start_download` is modelled from the spec (§4.2), as it is not under
src/. -/
theorem C3_failed_download_state (pre : DownloadState) (e : AppError)
    (sendR : AppResult Unit) (id : Int) (hpre : pre = .notDownloaded) :
    (start_download pre (.error e)).1 = pre ∧
    (start_download pre (.error e)).2.1 = none ∧
    (start_download pre (.error e)).2.2 = .error e ∧
    (do_download_episode id ⟨.error e, sendR⟩).2 = .error e := by
  subst hpre
  exact ⟨rfl, rfl, rfl, rfl⟩

/-- Claim C3, witness at a concrete failing download for episode 7. -/
theorem C3_failed_download_state_witness :
    (start_download .notDownloaded (.error ⟨"io failure"⟩)).1 = .notDownloaded ∧
    (start_download .notDownloaded (.error ⟨"io failure"⟩)).2.1 = none ∧
    (start_download .notDownloaded (.error ⟨"io failure"⟩)).2.2 = .error ⟨"io failure"⟩ ∧
    (do_download_episode 7 ⟨.error ⟨"io failure"⟩, .ok ()⟩).2 = .error ⟨"io failure"⟩ :=
  C3_failed_download_state .notDownloaded ⟨"io failure"⟩ (.ok ()) 7 rfl

/-- Claim C4: `import_podcast` immediately returns the freshly generated
request identifier, and the detached import task publishes exactly one
terminal notification — `import-podcast-done` or `import-podcast-error` —
tagged with that same identifier. -/
theorem C4_import_terminal_exactly_once (importId : String) (env : ImportEnv) :
    (import_podcast importId env).1 = .ok importId ∧
    ∃ t, (import_podcast importId env).2.filter isImportTerminal = [t] ∧
      importTag t = some importId := by
  obtain ⟨ir, sr⟩ := env
  cases ir with
  | error e => exact ⟨rfl, .importPodcastError importId e.msg, rfl, rfl⟩
  | ok p =>
    cases sr with
    | error e => exact ⟨rfl, .importPodcastError importId e.msg, rfl, rfl⟩
    | ok u => exact ⟨rfl, .importPodcastDone importId, rfl, rfl⟩

/-- Claim C5, counterexample: at input volume 2 the persisted config volume is
the raw value 2, not the clamped bound 1 — even though the player-side volume
(modelled from the spec) is clamped to 1 — refuting the claim that `set_volume`
clamps the value persisted to config. -/
theorem C5_counterexample :
    (set_volume 2 ⟨⟨"", "device", "", 1/2⟩⟩ (.ok ())).1.stored.volume = 2 ∧
    (set_volume 2 ⟨⟨"", "device", "", 1/2⟩⟩ (.ok ())).2.1 = .ok () ∧
    Player.set_volume 2 = 1 := by
  refine ⟨rfl, rfl, ?_⟩
  rw [Player.set_volume, min_eq_left (by norm_num : (1 : Rat) ≤ 2),
    max_eq_right (by norm_num : (0 : Rat) ≤ 1)]

/-- Claim C5, amended: `set_volume` never rejects a call on account of the
value being out of range and stores the raw, unclamped input in the persisted
config; the clamping to `[0, 1]` happens only in the player (modelled from the
spec), so the effective output volume always lies in `[0, 1]` while the
persisted config volume equals the raw input. -/
theorem C5_raw_volume_stored (v : Rat) (w : ConfigWrapper) :
    (set_volume v w (.ok ())).1.stored.volume = v ∧
    (set_volume v w (.ok ())).2.1 = .ok () ∧
    (set_volume v w (.ok ())).2.2 = some v ∧
    0 ≤ Player.set_volume v ∧ Player.set_volume v ≤ 1 := by
  refine ⟨rfl, rfl, rfl, le_max_left 0 _, ?_⟩
  rw [Player.set_volume]
  exact max_le (by norm_num) (min_le_left 1 v)

/-- Claim C7: `get_config` is total — it returns a `Config` for every state of
the store, with no failure outcome — and the value it returns is a snapshot of
the current stored config: the stored value itself, and, after an update, the
newly stored value. -/
theorem C7_get_config_snapshot (w : ConfigWrapper) (c : Config) :
    get_config w = w.stored ∧
    get_config (ConfigWrapper.update w c (.ok ())).1 = c :=
  ⟨rfl, rfl⟩

/-- Claim C8: when the episode and its progress record exist (and the recorded
listened time is a nonnegative value in machine-integer range), the start
offset `play_episode` hands to the player is 0 when the progress is marked
completed, and the recorded `listened_seconds` otherwise; the command returns
`Ok(())`. -/
theorem C8_play_start_offset (env : PlayEnv) (ep : Episode) (pr : EpisodeProgress)
    (hf : env.findResult = .ok ep) (hp : env.progressResult = .ok pr)
    (h0 : 0 ≤ pr.listened_seconds) (h1 : pr.listened_seconds < 2 ^ 31) :
    (play_episode env).1 = .ok () ∧
    (play_episode env).2 =
      some (ep, if pr.completed then 0 else pr.listened_seconds.toNat) := by
  unfold play_episode
  rw [hf, hp]
  refine ⟨rfl, ?_⟩
  by_cases hc : pr.completed
  · simp [hc]
  · have hmod : pr.listened_seconds % 18446744073709551616 = pr.listened_seconds :=
      Int.emod_eq_of_lt h0 (lt_trans h1 (by norm_num))
    simp [hc, castU64, hmod]

/-- Claim C8, witness: episode 42 with an uncompleted progress record of 17
listened seconds is handed to the player at offset 17. -/
theorem C8_play_start_offset_witness :
    (play_episode ⟨.ok ⟨42⟩, .ok ⟨false, 17⟩⟩).1 = .ok () ∧
    (play_episode ⟨.ok ⟨42⟩, .ok ⟨false, 17⟩⟩).2 = some (⟨42⟩, 17) :=
  C8_play_start_offset ⟨.ok ⟨42⟩, .ok ⟨false, 17⟩⟩ ⟨42⟩ ⟨false, 17⟩ rfl rfl
    (by norm_num) (by norm_num)

/-- Claim C9: `download_episode` returns `Ok(())` synchronously for every
episode id and every outcome of the detached download — including ids with no
corresponding episode, whose lookup failure surfaces only inside the detached
task — so no validation error or download error is ever returned to its
caller. -/
theorem C9_download_episode_always_ok (id : Int) (env : DownloadEnv) :
    (download_episode id env).1 = .ok () := rfl

/-- Claim C10: `set_access_key` changes only the `user_access_key` field of the
stored config — the device name, access token and volume after the call equal
their values in the snapshot taken at the start of the call, for every
persistence outcome — and on successful persistence the stored
`user_access_key` equals the given value. -/
theorem C10_set_access_key_frame (value : String) (w : ConfigWrapper)
    (persist : AppResult Unit) :
    (set_access_key value w persist).1.stored.device_name = w.stored.device_name ∧
    (set_access_key value w persist).1.stored.access_token = w.stored.access_token ∧
    (set_access_key value w persist).1.stored.volume = w.stored.volume ∧
    (set_access_key value w (.ok ())).1.stored.user_access_key = value := by
  cases persist with
  | ok u => exact ⟨rfl, rfl, rfl, rfl⟩
  | error e => exact ⟨rfl, rfl, rfl, rfl⟩

end Dimppl
